import Mathlib

set_option maxRecDepth 100000

/-!
Verification of the textual content of `src/harmonic_vault_interface.py`
from the repository CrowVanGogh/Ball-4d-Universe-Navigation-System.

The artifact is a prose/Markdown documentation stub carrying a `.py`
extension.  Every claim below is a statement about this fixed text, so the
embedding is the file itself as data (its lines, verbatim) together with
executable predicates over that text: blank/heading/bullet classification,
detection of Python definition and control-flow constructs, section
extraction, and a small model of the one fact of the Python grammar needed
to settle syntactic validity.
-/

/-- The eighteen lines of `src/harmonic_vault_interface.py`, verbatim.
The file is 515 bytes, contains 17 newline characters and no trailing
newline, so splitting on newline yields these 18 lines. -/
def harmonic_vault_interface : List String := [
  "# harmonic_vault_interface",
  "",
  "This module provides a unified interface for vault selection and QR-signing.",
  "",
  "## Vault Selection",
  "",
  "- Supports: Ellipal, Keystone, Trezor",
  "- Functionality to select vault based on user preferences.",
  "",
  "## QR Signing Stubs",
  "",
  "- Implementation stubs for signing using QR codes.",
  "- These stubs will need to be filled with the actual signing logic.",
  "",
  "## Round-Trip Validation Hooks",
  "",
  "- Interfaces for validating the signing process round-trip.",
  "- Hooks to verify the input and output signature validity."]

/-- The raw character stream of the file: the lines joined by the newline
character, with no trailing newline (matching the bytes on disk). -/
def fileChars : List Char :=
  List.intercalate [Char.ofNat 10] (harmonic_vault_interface.map String.data)

/-- Whether the character list `cs` begins with the character list `p`. -/
def charsStartWith : List Char → List Char → Bool
  | [], _ => true
  | _ :: _, [] => false
  | a :: ps, b :: cs => a == b && charsStartWith ps cs

/-- Whether the character list `cs` contains `p` as a contiguous sublist. -/
def charsContain (p : List Char) : List Char → Bool
  | [] => charsStartWith p []
  | c :: cs => charsStartWith p (c :: cs) || charsContain p cs

/-- Whether the line `l` contains the string `p` as a substring. -/
def lineContains (p l : String) : Bool := charsContain p.data l.data

/-- A line consisting only of spaces and tabs (here: the empty line). -/
def isBlankLine (l : String) : Bool :=
  l.data.all (fun c => c == ' ' || c == Char.ofNat 9)

/-- The line with leading spaces and tabs removed, as characters. -/
def strippedLine (l : String) : List Char :=
  l.data.dropWhile (fun c => c == ' ' || c == Char.ofNat 9)

/-- A line whose first non-blank character is the hash character:
a comment for the Python tokenizer, a heading in Markdown. -/
def isCommentLine (l : String) : Bool :=
  match strippedLine l with
  | c :: _ => c == '#'
  | [] => false

/-- Characters allowed in a Python identifier (ASCII fragment). -/
def isNameChar (c : Char) : Bool := c.isAlpha || c.isDigit || c == '_'

/-- The reserved (hard) keywords of Python 3. -/
def pyKeywords : List String :=
  ["False", "None", "True", "and", "as", "assert", "async", "await",
   "break", "class", "continue", "def", "del", "elif", "else", "except",
   "finally", "for", "from", "global", "if", "import", "in", "is",
   "lambda", "nonlocal", "not", "or", "pass", "raise", "return", "try",
   "while", "with", "yield"]

/-- The soft keywords of Python 3, which may legally be followed by a
second NAME token at the start of a statement. -/
def pySoftKeywords : List String := ["match", "case", "type", "_"]

/-- If the line (after leading blanks) begins with two identifier tokens
separated only by spaces, return them. -/
def beginsWithTwoNames (l : String) : Option (String × String) :=
  let cs := strippedLine l
  let n1 := cs.takeWhile isNameChar
  let r1 := cs.dropWhile isNameChar
  if n1.isEmpty then none
  else
    match r1 with
    | ' ' :: r2 =>
      let n2 := (r2.dropWhile (fun c => c == ' ')).takeWhile isNameChar
      if n2.isEmpty then none else some (String.mk n1, String.mk n2)
    | _ => none

/-- Model of the one fact of the Python 3 grammar this development needs:
no production of the grammar lets a logical line begin with two adjacent
NAME tokens when the first is neither a hard nor a soft keyword, so the
CPython parser raises SyntaxError on such a line.  Lines of any other
shape are outside the scope of this model and are not flagged. -/
def pyRejectsLine (l : String) : Bool :=
  match beginsWithTwoNames l with
  | some p => !((pyKeywords ++ pySoftKeywords).contains p.1)
  | none => false

/-- The first line the Python tokenizer does not discard: neither blank
nor a comment line. -/
def pyFirstEffectiveLine (ls : List String) : Option String :=
  ls.find? (fun l => !(isBlankLine l || isCommentLine l))

/-- Outcome of handing a source file to the Python parser. -/
inductive PyParseResult where
  | ok
  | syntaxError (msg : String)
  deriving DecidableEq

/-- Model of parsing the file as a Python module, restricted to the
grammar fragment of `pyRejectsLine`: blank and comment lines are skipped
by the tokenizer; if the first remaining line begins with two adjacent
non-keyword NAME tokens the parser stops with SyntaxError, and parsing
never reaches any later line. -/
def pyLoad (ls : List String) : PyParseResult :=
  match pyFirstEffectiveLine ls with
  | none => PyParseResult.ok
  | some l =>
    if pyRejectsLine l then PyParseResult.syntaxError ("invalid syntax")
    else PyParseResult.ok

/-- Python statement-opening keywords and compound-statement heads.  A
line whose first non-blank characters match one of these would begin a
Python definition or control-flow construct. -/
def pyConstructHeads : List String :=
  ["import ", "from ", "def ", "class ", "async ", "lambda", "if ",
   "elif ", "else", "for ", "while ", "try", "except", "finally",
   "with ", "return", "yield", "raise", "pass", "break", "continue",
   "del ", "assert ", "global ", "nonlocal ", "await ", "match ",
   "case ", "@"]

/-- Whether a line opens a Python definition or control-flow construct. -/
def beginsPyConstruct (l : String) : Bool :=
  pyConstructHeads.any (fun k => charsStartWith k.data (strippedLine l))

/-- Whether a line contains the equals character anywhere (necessary for
any Python assignment statement). -/
def containsEquals (l : String) : Bool := l.data.any (fun c => c == '=')

/-- The name bound by a line opening a Python `def` or `class`
definition, if any. -/
def defName (l : String) : Option String :=
  let cs := strippedLine l
  if charsStartWith (String.data ("def ")) cs then
    some (String.mk ((cs.drop 4).takeWhile isNameChar))
  else if charsStartWith (String.data ("class ")) cs then
    some (String.mk ((cs.drop 6).takeWhile isNameChar))
  else none

/-- All names of callable operations (functions and classes) the file
defines. -/
def callableOperations (ls : List String) : List String := ls.filterMap defName

/-- A Markdown section heading line (two hashes and a space). -/
def isSectionHeading (l : String) : Bool :=
  charsStartWith (String.data ("## ")) l.data

/-- A Markdown bullet line (dash and a space). -/
def isBulletLine (l : String) : Bool :=
  charsStartWith (String.data ("- ")) l.data

/-- All section heading lines, in order of appearance. -/
def sectionHeadings (ls : List String) : List String := ls.filter isSectionHeading

/-- The lines of the section titled `title`: everything after the heading
line up to (not including) the next heading of any level. -/
def sectionBody (title : String) (ls : List String) : List String :=
  ((ls.dropWhile (fun l => !(l == title))).drop 1).takeWhile
    (fun l => !(charsStartWith [ '#' ] l.data))

/-- Split a character list at each comma. -/
def splitOnCommaChar : List Char → List (List Char)
  | [] => [[]]
  | c :: cs =>
    let rest := splitOnCommaChar cs
    if c == ',' then [] :: rest
    else
      match rest with
      | [] => [[c]]
      | t :: ts => (c :: t) :: ts

/-- The vendor names listed on the `- Supports:` bullet: the remainder of
that line split at commas, with surrounding spaces removed. -/
def supportedVaults (ls : List String) : List String :=
  match ls.find? (fun l => charsStartWith (String.data ("- Supports: ")) l.data) with
  | some l =>
    (splitOnCommaChar (l.data.drop 12)).map
      (fun cs => String.mk (cs.dropWhile (fun c => c == ' ')))
  | none => []

/-- The shape of a line of the artifact. -/
inductive LineKind where
  | blank
  | heading
  | bullet
  | prose
  deriving DecidableEq

/-- Classify a line as blank, a Markdown heading, a bullet, or prose. -/
def lineKind (l : String) : LineKind :=
  if isBlankLine l then LineKind.blank
  else if charsStartWith [ '#' ] l.data then LineKind.heading
  else if isBulletLine l then LineKind.bullet
  else LineKind.prose

/-- C1: the source module defines no operations at all: no line opens a
`def` or `class` (so the set of callable operations is empty), no line
opens any other Python definition or control-flow construct, and no line
contains the equals sign an assignment would need. -/
theorem no_operations_defined :
    callableOperations harmonic_vault_interface = [] ∧
    harmonic_vault_interface.all
      (fun l => !(beginsPyConstruct l || containsEquals l)) = true := by
  decide

/-- C2 counterexample: the artifact does not consist of exactly 17 lines
of text: splitting the 515 bytes at each of the 17 newline characters
yields 18 lines. -/
theorem line_count_not_seventeen :
    ¬ harmonic_vault_interface.length = 17 := by
  decide

/-- C2 (amended): the artifact consists of exactly 18 lines of text,
joined by exactly 17 newline characters with no trailing newline, for a
total of 515 characters. -/
theorem line_count_eighteen :
    harmonic_vault_interface.length = 18 ∧
    (fileChars.filter (fun c => c == Char.ofNat 10)).length = 17 ∧
    fileChars.length = 515 := by
  decide

/-- C3: the content is not syntactically valid Python: the first line the
tokenizer does not discard as blank or comment is line 3 (index 2), which
is bare prose opening with the two adjacent non-keyword NAME tokens
`This module`, so the parser stops with SyntaxError and the module can
never be imported or executed. -/
theorem not_valid_python :
    pyFirstEffectiveLine harmonic_vault_interface =
      some ("This module provides a unified interface for vault selection and QR-signing.") ∧
    harmonic_vault_interface.get? 2 = pyFirstEffectiveLine harmonic_vault_interface ∧
    beginsWithTwoNames
      ("This module provides a unified interface for vault selection and QR-signing.") =
      some (("This"), ("module")) ∧
    pyLoad harmonic_vault_interface = PyParseResult.syntaxError ("invalid syntax") := by
  decide

/-- C4: beneath the module title heading on line 1, the section headings
are exactly "Vault Selection", "QR Signing Stubs" and "Round-Trip
Validation Hooks", in that order, and the body of each of the three
sections consists only of bullet lines and blank lines. -/
theorem three_prose_bullet_sections :
    harmonic_vault_interface.head? = some ("# harmonic_vault_interface") ∧
    sectionHeadings harmonic_vault_interface =
      ["## Vault Selection", "## QR Signing Stubs", "## Round-Trip Validation Hooks"] ∧
    (sectionBody ("## Vault Selection") harmonic_vault_interface).all
      (fun l => isBlankLine l || isBulletLine l) = true ∧
    (sectionBody ("## QR Signing Stubs") harmonic_vault_interface).all
      (fun l => isBlankLine l || isBulletLine l) = true ∧
    (sectionBody ("## Round-Trip Validation Hooks") harmonic_vault_interface).all
      (fun l => isBlankLine l || isBulletLine l) = true := by
  decide

/-- C5: the Vault Selection section names exactly the three vendor
targets Ellipal, Keystone and Trezor (the full body is two prose bullets
and blanks), and no line of it opens a Python construct or contains the
equals sign any selection logic would need. -/
theorem vault_selection_three_vendors_no_logic :
    supportedVaults harmonic_vault_interface = ["Ellipal", "Keystone", "Trezor"] ∧
    sectionBody ("## Vault Selection") harmonic_vault_interface =
      ["",
       "- Supports: Ellipal, Keystone, Trezor",
       "- Functionality to select vault based on user preferences.",
       ""] ∧
    (sectionBody ("## Vault Selection") harmonic_vault_interface).all
      (fun l => !(beginsPyConstruct l || containsEquals l)) = true := by
  decide

/-- C6: the QR Signing Stubs section contains no signing implementation
(its body is two prose bullets and blanks, one of which itself states the
signing logic still has to be filled in), and the whole file defines no
callable operation, so no QR-signing operation exists anywhere. -/
theorem qr_signing_stubs_no_implementation :
    sectionBody ("## QR Signing Stubs") harmonic_vault_interface =
      ["",
       "- Implementation stubs for signing using QR codes.",
       "- These stubs will need to be filled with the actual signing logic.",
       ""] ∧
    (sectionBody ("## QR Signing Stubs") harmonic_vault_interface).any
      (fun l => lineContains ("will need to be filled with the actual signing logic") l) = true ∧
    callableOperations harmonic_vault_interface = [] := by
  decide

/-- C7: the Round-Trip Validation Hooks section states only interface
intent (two prose bullets about interfaces and hooks) and the whole file
defines no function at all, so no round-trip validation or
signature-verification function exists anywhere in the source. -/
theorem round_trip_hooks_no_algorithm :
    sectionBody ("## Round-Trip Validation Hooks") harmonic_vault_interface =
      ["",
       "- Interfaces for validating the signing process round-trip.",
       "- Hooks to verify the input and output signature validity."] ∧
    (sectionBody ("## Round-Trip Validation Hooks") harmonic_vault_interface).any
      (fun l => lineContains ("Hooks to verify") l) = true ∧
    (harmonic_vault_interface.filterMap defName) = [] := by
  decide

/-- C8: the program has no failure modes of its own: the set of defined
callable operations is empty, so there exists no defined operation whose
execution could raise an exception or return an error value. -/
theorem no_operation_can_fail :
    callableOperations harmonic_vault_interface = [] := by
  decide

/-- C9: the artifact performs no input/output and touches no external
state: no line opens an import, and no line mentions file, environment,
CLI-entry or stream access; moreover loading the module stops at a
SyntaxError before any statement could run. -/
theorem no_external_effects :
    harmonic_vault_interface.all (fun l =>
      !(charsStartWith (String.data ("import ")) (strippedLine l)) &&
      !(charsStartWith (String.data ("from ")) (strippedLine l)) &&
      !(lineContains ("open(") l) &&
      !(lineContains ("os.") l) &&
      !(lineContains ("sys.") l) &&
      !(lineContains ("environ") l) &&
      !(lineContains ("__main__") l) &&
      !(lineContains ("input(") l)) = true ∧
    pyLoad harmonic_vault_interface = PyParseResult.syntaxError ("invalid syntax") := by
  decide

/-- C10: every line of the artifact is blank, a Markdown heading starting
with the hash character, a bullet starting with a dash and a space, or
plain prose (exactly one line, line 3, is prose); and no line begins a
Python import, def or class, nor contains the equals sign an assignment
statement would need. -/
theorem every_line_is_prose_shaped :
    harmonic_vault_interface.map lineKind =
      [LineKind.heading, LineKind.blank, LineKind.prose, LineKind.blank,
       LineKind.heading, LineKind.blank, LineKind.bullet, LineKind.bullet,
       LineKind.blank, LineKind.heading, LineKind.blank, LineKind.bullet,
       LineKind.bullet, LineKind.blank, LineKind.heading, LineKind.blank,
       LineKind.bullet, LineKind.bullet] ∧
    harmonic_vault_interface.all (fun l =>
      !(charsStartWith (String.data ("import ")) (strippedLine l) ||
        charsStartWith (String.data ("from ")) (strippedLine l) ||
        charsStartWith (String.data ("def ")) (strippedLine l) ||
        charsStartWith (String.data ("class ")) (strippedLine l) ||
        containsEquals l)) = true := by
  decide
